import Mathlib

/-!
Verification development for the gift-certificate Telegram bot (src/bot.py).

The Python source is shallowly embedded: Python strings become `List Char`,
handler coroutines become pure functions from their inputs to the list of
observable effects they produce (replies sent, API calls issued), and the
external REST backend is an explicit oracle (`Backend`) supplying the
response of every call.  Machine integers of the source are `Nat`/`Int`
(Python integers are unbounded, so no wrap-around modelling is needed).
-/

namespace GiftBot

/-- Python strings, embedded as lists of characters. -/
abbrev Str := List Char

/-- A Lean string literal viewed as an embedded Python string. -/
def lit (s : String) : Str := s.data

/-- Whitespace, as stripped by Python `str.strip()` (the ASCII part). -/
def isWS (c : Char) : Bool := c = ' ' || c = '\t' || c = '\n' || c = '\r'

/-- Drop leading whitespace. -/
def lstrip : Str → Str
  | [] => []
  | c :: cs => if isWS c then lstrip cs else c :: cs

/-- Python `s.strip()`: drop leading and trailing whitespace. -/
def pstrip (s : Str) : Str := (lstrip (lstrip s).reverse).reverse

/-- Python `str.isdigit()` on one character (decimal-digit model). -/
def isDigitCh (c : Char) : Bool := '0' ≤ c && c ≤ '9'

/-- `"".join(ch for ch in s if ch.isdigit())`. -/
def filterDigits (s : Str) : Str := s.filter isDigitCh

/-- Python `s.isdigit()`: non-empty and all decimal digits. -/
def pyIsDigit (s : Str) : Bool := !s.isEmpty && s.all isDigitCh

/-- Value of a decimal digit character. -/
def digitVal (c : Char) : Nat := c.toNat - '0'.toNat

/-- Python `int(s)` on an all-digit string. -/
def digitsToNat (s : Str) : Nat := s.foldl (fun acc c => 10 * acc + digitVal c) 0

/-- The decimal digit character for `n % 10`-style rendering. -/
def digitCh (n : Nat) : Char :=
  if n = 0 then '0' else if n = 1 then '1' else if n = 2 then '2'
  else if n = 3 then '3' else if n = 4 then '4' else if n = 5 then '5'
  else if n = 6 then '6' else if n = 7 then '7' else if n = 8 then '8' else '9'

/-- Decimal rendering of a natural number (Python `f"{n}"`). -/
def natToStr (n : Nat) : Str :=
  if _h : n < 10 then [digitCh n]
  else natToStr (n / 10) ++ [digitCh (n % 10)]
decreasing_by exact Nat.div_lt_self (by omega) (by omega)

/-- Decimal rendering of a Python integer. -/
def intToStr (i : Int) : Str :=
  if i < 0 then '-' :: natToStr i.natAbs else natToStr i.toNat

/-- Python `int(s)` for a plain digit string, `None` on failure. -/
def parseDigits (s : Str) : Option Int :=
  if pyIsDigit s then some (Int.ofNat (digitsToNat s)) else none

/-- Python `int(s)` on arbitrary text: strips whitespace, allows one sign,
then decimal digits; any other shape raises (modelled as `none`). -/
def pyInt (s : Str) : Option Int :=
  match pstrip s with
  | '-' :: rest => (parseDigits rest).map (fun n => -n)
  | '+' :: rest => parseDigits rest
  | t => parseDigits t

/-- Python `s.split(":", 1)` when it yields two parts: the text before the
first colon and everything after it; `none` when `s` has no colon. -/
def splitColon : Str → Option (Str × Str)
  | [] => none
  | c :: cs => if c = ':' then some ([], cs)
               else (splitColon cs).map (fun p => (c :: p.1, p.2))

/-- `pat` is a prefix of the second argument (Python `startswith`). -/
def startsW : Str → Str → Bool
  | [], _ => true
  | _ :: _, [] => false
  | p :: ps, c :: cs => p = c && startsW ps cs

/-- Python `s.lower()` (ASCII model). -/
def pyLower (s : Str) : Str := s.map Char.toLower

/-- Python `sub in s`: substring containment. -/
def pyIn (sub : Str) : Str → Bool
  | [] => startsW sub []
  | c :: cs => startsW sub (c :: cs) || pyIn sub cs

/-- Python `x or y` on strings: `y` when `x` is empty. -/
def pyOrS (x y : Str) : Str := if x = [] then y else x

/-- Python `x or y` where `x` may be `None`. -/
def pyOrOS (x : Option Str) (y : Str) : Str :=
  match x with
  | none => y
  | some s => pyOrS s y

/-- Python `x or d` on optional integers (`None` and `0` are falsy). -/
def pyOrOI (x : Option Int) (d : Int) : Int :=
  match x with
  | none => d
  | some i => if i = 0 then d else i

/-- Python f-string rendering of a value that may be `None`. -/
def fstr (x : Option Str) : Str :=
  match x with
  | none => lit "None"
  | some s => s

/-- Occurrences of character `c` in a string. -/
def countc (c : Char) : Str → Nat
  | [] => 0
  | d :: ds => (if d = c then 1 else 0) + countc c ds

/-- Python `"\n".join(lines)`. -/
def joinNL : List Str → Str
  | [] => []
  | [l] => l
  | l :: ls => l ++ '\n' :: joinNL ls

/-- `is_admin` (src/bot.py line 100): true when the configured admin set is
empty, or when the caller id is a member. -/
def is_admin (adminIds : List Nat) (uid : Nat) : Bool :=
  adminIds.isEmpty || adminIds.contains uid

/-- Python `s.replace(tgt, rep)` for a one-character target. -/
def pyReplace (tgt : Char) (rep : Str) : Str → Str
  | [] => []
  | c :: cs => (if c = tgt then rep else [c]) ++ pyReplace tgt rep cs

/-- `esc_html` (src/bot.py line 175): `""` for `None`, then the three
chained replaces of `&`, `<`, `>`. -/
def esc_html (s : Option Str) : Str :=
  let s0 := match s with | none => [] | some t => t
  pyReplace '>' (lit "&gt;") (pyReplace '<' (lit "&lt;") (pyReplace '&' (lit "&amp;") s0))

/-- `status_emoji` (src/bot.py line 179). -/
def status_emoji (status : Str) : Str :=
  let s := pyLower status
  if s = lit "used" then lit "♻️"
  else if s = lit "annulled" then lit "🚫"
  else if pyIn (lit "error") s then lit "⚠️"
  else lit "✅"

/-- `status_label` (src/bot.py line 189). -/
def status_label (status : Str) : Str :=
  let s := pyLower status
  if s = lit "used" then lit "Использован"
  else if s = lit "annulled" then lit "Аннулирован"
  else if s = lit "sent" then lit "Отправлен"
  else if s = lit "manual" then lit "Создан вручную"
  else if s = lit "send_error" then lit "Ошибка отправки"
  else pyOrS status (lit "—")

/-- A certificate record as the backend serialises it: every textual field
may be missing (`None`), `order_id` is read with `int(... or 0)`. -/
structure Cert where
  giftcert_id : Option Str
  code : Option Str
  amount : Option Str
  status : Option Str
  source : Option Str
  recipient_name : Option Str
  recipient_email : Option Str
  firstname : Option Str
  lastname : Option Str
  created_at : Option Str
  sent_at : Option Str
  used_at : Option Str
  annulled_at : Option Str
  order_id : Nat
deriving DecidableEq

/-- The certificate with every field absent (Python `{}`). -/
def emptyCert : Cert :=
  Cert.mk none none none none none none none none none none none none none 0

/-- `int(cert.get("giftcert_id") or 0)` as used by `build_cert_keyboard`. -/
def certGidInt (cert : Cert) : Int :=
  match cert.giftcert_id with
  | none => 0
  | some s => if s = [] then 0 else (pyInt s).getD 0

/-- One optional timestamp line of `format_cert` (src/bot.py lines 227-230). -/
def tsLine (title : Str) (v : Option Str) : List Str :=
  let w := pstrip (v.getD [])
  if w = [] then []
  else [title ++ lit ": <code>" ++ esc_html (some w) ++ lit "</code>"]

/-- `format_cert` (src/bot.py line 203): the HTML card for one certificate. -/
def format_cert (cert : Cert) : Str :=
  let gid := cert.giftcert_id.getD []
  let code := cert.code.getD []
  let amount := cert.amount.getD []
  let st := cert.status.getD []
  let src := pyOrOS cert.source (lit "—")
  let rn := pstrip (cert.recipient_name.getD [])
  let reml := pstrip (cert.recipient_email.getD [])
  let donor := pstrip ((cert.lastname.getD []) ++ ' ' :: (cert.firstname.getD []))
  let oid := cert.order_id
  joinNL
    ([lit "🎟 <b>Сертификат</b>",
      lit "ID: <b>" ++ esc_html (some gid) ++ lit "</b>",
      lit "Код: <b>" ++ esc_html (some code) ++ lit "</b>",
      lit "Сумма: <b>" ++ esc_html (some amount) ++ lit " BYN</b>",
      lit "Статус: " ++ status_emoji st ++ lit " <b>"
        ++ esc_html (some (status_label st)) ++ lit "</b>",
      lit "Источник: <code>" ++ esc_html (some src) ++ lit "</code>"]
     ++ (if rn = [] ∧ reml = [] then []
         else [lit "Получатель: <b>" ++ esc_html (some (pyOrS rn (lit "—")))
               ++ lit "</b> — " ++ esc_html (some (pyOrS reml (lit "—")))])
     ++ (if donor = [] then []
         else [lit "Даритель: <b>" ++ esc_html (some donor) ++ lit "</b>"])
     ++ tsLine (lit "Создан") cert.created_at
     ++ tsLine (lit "Отправлен") cert.sent_at
     ++ tsLine (lit "Использован") cert.used_at
     ++ tsLine (lit "Аннулирован") cert.annulled_at
     ++ (if oid = 0 then []
         else [lit "Заказ: <code>#" ++ natToStr oid ++ lit "</code>"]))

/-- `build_cert_keyboard` (src/bot.py line 238): inline buttons as
(label, callback token) pairs. -/
def build_cert_keyboard (cert : Cert) : List (List (Str × Str)) :=
  let gid := certGidInt cert
  let st := pyLower (cert.status.getD [])
  [[(lit "📄 PDF", lit "pdf:" ++ intToStr gid),
    (lit "✉️ Email", lit "email:" ++ intToStr gid)]]
  ++ (if st = lit "used" ∨ st = lit "annulled" then []
      else [[(lit "✅ Использовать", lit "use:" ++ intToStr gid),
             (lit "🚫 Аннулировать", lit "annul:" ++ intToStr gid)]])
  ++ [[(lit "🗑 Удалить", lit "del:" ++ intToStr gid)]]

/-- The payload `on_action` builds for the create call (src/bot.py line 421). -/
structure CreatePayload where
  amount : Nat
  recipient_name : Str
  firstname : Str
  lastname : Str
  recipient_email : Str
  send_email : Bool
deriving DecidableEq

/-- One call against the backend API client. -/
inductive ApiCall
  | create (p : CreatePayload)
  | get (giftcert_id : Int) (code : Str)
  | use (giftcert_id : Int) (code : Str) (note : Str)
  | postResend (giftcert_id : Int)
  | postAnnul (giftcert_id : Int) (reason : Str)
  | postDelete (giftcert_id : Int) (confirm : Bool)
  | downloadPdf (giftcert_id : Int) (code : Str)
deriving DecidableEq

/-- One observable effect of a handler: a message sent to the chat, a
callback answer, or an API call issued. -/
inductive Effect
  | reply (text : Str)
  | replyKb (text : Str) (kb : List (List Str))
  | replyInline (text : Str) (buttons : List (List (Str × Str)))
  | replyHTML (text : Str) (buttons : List (List (Str × Str)))
  | replyDoc (filename : Str) (caption : Str)
  | answer (text : Str) (alert : Bool)
  | api (c : ApiCall)
deriving DecidableEq

/-- The JSON fields every handler inspects on a backend response. -/
structure ApiResp where
  success : Bool
  error : Option Str
  message : Option Str
  raw : Option Str
deriving DecidableEq

/-- Response of the `get` endpoint: the base fields plus the certificate
(`none` models both a missing and an empty `cert` payload). -/
structure GetResp where
  base : ApiResp
  cert : Option Cert
deriving DecidableEq

/-- Response of the `create` endpoint. -/
structure CreateResp where
  base : ApiResp
  giftcert_id : Option Int
  code : Option Str
  amount : Option Str
deriving DecidableEq

/-- The external backend as an oracle: what each call would return.
`pdfResp` is `Except` because `api_download_pdf` raises on failure. -/
structure Backend where
  createResp : CreatePayload → CreateResp
  getResp : Int → Str → GetResp
  useResp : Int → Str → Str → ApiResp
  resendResp : Int → ApiResp
  annulResp : Int → Str → ApiResp
  deleteResp : Int → Bool → ApiResp
  pdfResp : Int → Str → Except Str Str

/-- `resp.get("error") or resp.get("message") or resp.get("raw") or dflt`. -/
def errOr (r : ApiResp) (dflt : Str) : Str :=
  pyOrOS r.error (pyOrOS r.message (pyOrOS r.raw dflt))

/-- `NON_ADMIN_SCAN_TEXT` (src/bot.py line 42): the fixed promotional reply. -/
def NON_ADMIN_SCAN_TEXT : Str :=
  lit "Чтобы воспользоваться 🎁 Подарочным сертификатом, приглашаем вас в нашу виртуальную арену VRPOINT.BY 🕶✨\nЗабронировать услугу можно на сайте: https://vrpoint.by 🌐\n\n📍 Наши адреса в Минске:\n• Я. Коласа, 37\n• Маяковского, 6 (ТЦ «Червенский»)\n\n📞 Телефон для связи: +375291419921\n\nДо встречи в VR 🚀🎮"

/-- `show_cert_by_code` (src/bot.py line 265): look a certificate up by code
and display its card, or an error message. -/
def show_cert_by_code (B : Backend) (code : Str) : List Effect :=
  let resp := B.getResp 0 code
  Effect.api (ApiCall.get 0 code) ::
  (if resp.base.success = false then
    [Effect.reply (lit "❌ Сертификат не найден.\nКод: " ++ code ++ lit "\n\n"
      ++ List.take 300 (errOr resp.base (lit "Сертификат не найден.")))]
   else
    let cert := resp.cert.getD emptyCert
    [Effect.replyHTML (format_cert cert) (build_cert_keyboard cert)])

/-- `scan_cmd` (src/bot.py line 491): explicit `/scan <code>`. -/
def scan_cmd (B : Backend) (admins : List Nat) (uid : Nat) (args : List Str) :
    List Effect :=
  match args with
  | [] => [Effect.reply (lit "Использование: /scan 123456")]
  | a :: _ =>
    let code := filterDigits a
    if code = [] then [Effect.reply (lit "Нужен числовой код.")]
    else if is_admin admins uid = false then [Effect.reply NON_ADMIN_SCAN_TEXT]
    else show_cert_by_code B code

/-- Code extraction of the deep-link path of `start` (src/bot.py lines
292-296): strip a `gc_`/`gc-` tag, keep digits. -/
def deepLinkCode (payload : Str) : Str :=
  if startsW (lit "gc_") payload || startsW (lit "gc-") payload
  then filterDigits (payload.drop 3)
  else filterDigits payload

/-- The no-code tail of `start` (src/bot.py lines 308-322). -/
def startNoCode (admins : List Nat) (uid : Nat) (sheetUrl : Str) : List Effect :=
  if is_admin admins uid = false then [Effect.reply (lit "Доступ ограничен.")]
  else [Effect.replyKb (lit "Выберите действие:")
          ([[lit "➕ Создать сертификат", lit "📒 Журнал"]]
           ++ (if sheetUrl = [] then [] else [[lit "🔗 Открыть Google-таблицу"]]))]

/-- `start` (src/bot.py line 278): deep-link entry. -/
def start (B : Backend) (admins : List Nat) (uid : Nat) (sheetUrl : Str)
    (args : List Str) : List Effect :=
  let payload := match args with | [] => [] | a :: _ => pstrip a
  if payload = [] then startNoCode admins uid sheetUrl
  else
    let code := deepLinkCode payload
    if code ≠ [] ∧ is_admin admins uid = false then [Effect.reply NON_ADMIN_SCAN_TEXT]
    else if code ≠ [] then show_cert_by_code B code
    else startNoCode admins uid sheetUrl

/-- `fetch_cert_by_id` (src/bot.py line 259) followed by the card-or-fallback
display its two callers share (src/bot.py lines 604-608 and 618-622). -/
def fetchAndShow (B : Backend) (gid : Int) (fallbackMsg : Str) : List Effect :=
  let resp := B.getResp gid []
  Effect.api (ApiCall.get gid []) ::
  (match (if resp.base.success then resp.cert else none) with
   | some cert => [Effect.replyHTML (format_cert cert) (build_cert_keyboard cert)]
   | none => [Effect.reply fallbackMsg])

/-- The verb dispatch of `on_callback` (src/bot.py lines 551-625), after the
token has parsed as `action:gid`. -/
def dispatch (B : Backend) (action : Str) (gid : Int) : List Effect :=
  if action = lit "del" then
    [Effect.answer [] false,
     Effect.replyInline
       (lit "Удалить сертификат #" ++ intToStr gid ++ lit "? Код станет доступен снова.")
       [[(lit "✅ Да, удалить", lit "del_yes:" ++ intToStr gid),
         (lit "↩️ Отмена", lit "del_no:" ++ intToStr gid)]]]
  else if action = lit "del_no" then
    [Effect.answer (lit "Ок, не удаляю.") false]
  else if action = lit "del_yes" then
    let resp := B.deleteResp gid true
    Effect.answer (lit "Удаляю…") false :: Effect.api (ApiCall.postDelete gid true) ::
    (if resp.success = false then
      [Effect.reply (lit "❌ Ошибка удаления: " ++ List.take 300 (errOr resp []))]
     else
      [Effect.reply (lit "Удалён ✅ (сертификат #" ++ intToStr gid
        ++ lit "). Код стал доступен снова.")])
  else if action = lit "pdf" then
    Effect.answer (lit "Готовлю PDF…") false :: Effect.api (ApiCall.downloadPdf gid []) ::
    (match B.pdfResp gid [] with
     | Except.ok _ =>
       [Effect.replyDoc (lit "Certificate_" ++ intToStr gid ++ lit ".pdf")
          (lit "PDF сертификата #" ++ intToStr gid)]
     | Except.error e => [Effect.reply (lit "Ошибка PDF: " ++ e)])
  else if action = lit "email" then
    let resp := B.resendResp gid
    Effect.answer (lit "Отправляю email…") false :: Effect.api (ApiCall.postResend gid) ::
    (if resp.success = false then
      [Effect.reply (lit "❌ Ошибка отправки: " ++ List.take 300 (errOr resp []))]
     else
      [Effect.reply (lit "Email отправлен ✅ (сертификат #" ++ intToStr gid ++ lit ")")])
  else if action = lit "use" then
    let note := lit "Использован через Telegram"
    let resp := B.useResp gid [] note
    Effect.answer (lit "Отмечаю как использованный…") false ::
      Effect.api (ApiCall.use gid [] note) ::
    (if resp.success = false then
      [Effect.reply (lit "❌ Не получилось: " ++ List.take 300 (errOr resp []))]
     else fetchAndShow B gid (lit "Готово ✅"))
  else if action = lit "annul" then
    let reason := lit "Аннулирован через Telegram"
    let resp := B.annulResp gid reason
    Effect.answer (lit "Аннулирую…") false :: Effect.api (ApiCall.postAnnul gid reason) ::
    (if resp.success = false then
      [Effect.reply (lit "❌ Ошибка: " ++ List.take 300 (errOr resp []))]
     else fetchAndShow B gid
       (lit "🚫 Аннулирован ✅ (сертификат #" ++ intToStr gid ++ lit ")"))
  else [Effect.answer (lit "Неизвестное действие.") true]

/-- `on_callback` (src/bot.py line 533): admin gate, token parse, dispatch. -/
def on_callback (B : Backend) (admins : List Nat) (uid : Nat) (qdata : Option Str) :
    List Effect :=
  if is_admin admins uid = false then [Effect.answer (lit "Доступ ограничен.") true]
  else
    match qdata with
    | none => []
    | some d =>
      match splitColon d with
      | none => [Effect.answer (lit "Некорректная команда.") true]
      | some (action, gid_s) =>
        match pyInt gid_s with
        | none => [Effect.answer (lit "Некорректная команда.") true]
        | some gid => dispatch B action gid

/-- The states of the creation wizard's `ConversationHandler`
(src/bot.py line 95), plus `Idle` for `ConversationHandler.END`. -/
inductive WState
  | AMOUNT | RECIPIENT_NAME | DONOR_FIRST | DONOR_LAST | RECIPIENT_EMAIL | ACTION
  | Idle
deriving DecidableEq

/-- `context.user_data` as the wizard uses it: each key present or absent. -/
structure UserData where
  amount : Option Nat
  recipient_name : Option Str
  firstname : Option Str
  lastname : Option Str
  recipient_email : Option Str
deriving DecidableEq

/-- `context.user_data.clear()`. -/
def emptyUD : UserData := UserData.mk none none none none none

/-- Result of one wizard handler: the next conversation state, the updated
per-user data, and the effects produced. -/
structure HRes where
  state : WState
  ud : UserData
  out : List Effect
deriving DecidableEq

/-- `"" if s == "-" else s`: the skip sentinel of the optional steps. -/
def skipDash (s : Str) : Str := if s = lit "-" then [] else s

/-- `on_amount` (src/bot.py line 363). -/
def on_amount (ud : UserData) (text : Str) : HRes :=
  let s := pstrip text
  if pyIsDigit s = false ∨ digitsToNat s ≤ 0 then
    HRes.mk WState.AMOUNT ud [Effect.reply (lit "Нужно число > 0. Пример: 70")]
  else
    HRes.mk WState.RECIPIENT_NAME { ud with amount := some (digitsToNat s) }
      [Effect.reply (lit "Имя получателя (опционально). Или напишите '-' чтобы пропустить.")]

/-- `on_recipient_name` (src/bot.py line 372). -/
def on_recipient_name (ud : UserData) (text : Str) : HRes :=
  let s := pstrip text
  HRes.mk WState.DONOR_FIRST { ud with recipient_name := some (skipDash s) }
    [Effect.reply (lit "Имя дарителя (опционально). Или '-' чтобы пропустить.")]

/-- `on_donor_first` (src/bot.py line 378). -/
def on_donor_first (ud : UserData) (text : Str) : HRes :=
  let s := pstrip text
  HRes.mk WState.DONOR_LAST { ud with firstname := some (skipDash s) }
    [Effect.reply (lit "Фамилия дарителя (опционально). Или '-' чтобы пропустить.")]

/-- `on_donor_last` (src/bot.py line 384). -/
def on_donor_last (ud : UserData) (text : Str) : HRes :=
  let s := pstrip text
  HRes.mk WState.RECIPIENT_EMAIL { ud with lastname := some (skipDash s) }
    [Effect.reply (lit "Email получателя (опционально). Или '-' чтобы пропустить.")]

/-- Python f-string rendering of `user_data.get("amount")`. -/
def showOptNat (x : Option Nat) : Str :=
  match x with
  | none => lit "None"
  | some n => natToStr n

/-- `on_recipient_email` (src/bot.py line 390): store the email, show the
summary and the delivery keyboard, advance to `ACTION`. -/
def on_recipient_email (ud : UserData) (text : Str) : HRes :=
  let s := pstrip text
  let ud2 := { ud with recipient_email := some (skipDash s) }
  let firstname := ud2.firstname.getD []
  let lastname := ud2.lastname.getD []
  let summary :=
    lit "Проверьте данные:\n• Сумма: " ++ showOptNat ud2.amount
    ++ lit " BYN\n• Получатель: " ++ pyOrS (ud2.recipient_name.getD []) (lit "—")
    ++ lit "\n• Даритель: " ++ pyOrS (pstrip (firstname ++ ' ' :: lastname)) (lit "—")
    ++ lit "\n• Email: " ++ pyOrS (ud2.recipient_email.getD []) (lit "—")
    ++ lit "\n\nКак отправить?"
  HRes.mk WState.ACTION ud2
    [Effect.replyKb summary [[lit "📄 PDF в Telegram", lit "✉️ На email"], [lit "❌ Отмена"]]]

/-- `cancel` (src/bot.py line 357): clear the session, reply, end. -/
def cancelRes : HRes :=
  HRes.mk WState.Idle emptyUD [Effect.reply (lit "Отменено.")]

/-- The create payload `on_action` builds (src/bot.py lines 420-430) from the
collected data and the (stripped) delivery-choice text. -/
def mkPayload (ud : UserData) (s : Str) : CreatePayload :=
  CreatePayload.mk (ud.amount.getD 0) (ud.recipient_name.getD [])
    (ud.firstname.getD []) (ud.lastname.getD []) (ud.recipient_email.getD [])
    (if s = lit "✉️ На email" then true else false)

/-- The error reply of a failed create (src/bot.py line 440). -/
def createErrText (resp : CreateResp) : Str :=
  lit "Ошибка API: " ++ fstr resp.base.error ++ '\n' :: List.take 500 (resp.base.raw.getD [])

/-- `on_action` (src/bot.py line 415): cancel, or validate the email choice,
or submit one create call and then try the PDF download. -/
def on_action (B : Backend) (sheetUrl : Str) (ud : UserData) (text : Str) : HRes :=
  let s := pstrip text
  if s = lit "❌ Отмена" then cancelRes
  else
    let payload := mkPayload ud s
    if payload.send_email = true ∧ payload.recipient_email = [] then
      HRes.mk WState.ACTION ud
        [Effect.reply (lit "Вы выбрали email, но email не указан. Введите email или выберите PDF в Telegram.")]
    else
      let pre := [Effect.reply (lit "Генерирую сертификат…"),
                  Effect.api (ApiCall.create payload)]
      let resp := B.createResp payload
      if resp.base.success = false then
        HRes.mk WState.Idle ud (pre ++ [Effect.reply (createErrText resp)])
      else
        let giftcert_id := pyOrOI resp.giftcert_id 0
        let code := resp.code.getD []
        let amount := resp.amount.getD (natToStr payload.amount)
        let pdfStep :=
          match B.pdfResp giftcert_id [] with
          | Except.ok _ =>
            [Effect.replyDoc
               (lit "Certificate_" ++ pyOrS code (intToStr giftcert_id) ++ lit ".pdf")
               (lit "Сертификат создан ✅\nКод: " ++ code ++ lit "\nСумма: " ++ amount
                ++ lit " BYN\nИсточник: telegram")]
          | Except.error e => [Effect.reply (lit "Создан, но не смог отправить PDF: " ++ e)]
        let sheetStep :=
          if sheetUrl = [] then []
          else [Effect.replyKb (lit "Журнал:") [[lit "📒 Журнал (Google Таблица)"]]]
        HRes.mk WState.Idle ud
          (pre ++ Effect.api (ApiCall.downloadPdf giftcert_id []) :: pdfStep
           ++ sheetStep ++ [Effect.reply (lit "Готово.")])

/-- One inbound event of the wizard conversation: a plain text message, the
`/cancel` fallback, or entry via `/new` / the menu button (`adm` is the
identity gate's verdict checked inside `new_cmd`). -/
inductive WEvent
  | msg (text : Str)
  | cancelCmd
  | newCmd (adm : Bool)

/-- The prompt `new_cmd` sends on entry (src/bot.py line 352). -/
def newPrompt : List Effect :=
  [Effect.reply (lit "Введите сумму (BYN), только цифры. Например: 70\n\n/cancel — отмена")]

/-- The wizard's transition function: the `ConversationHandler` of
src/bot.py lines 649-667, routing an event in a state to its handler. -/
def wizardStep (B : Backend) (sheetUrl : Str) :
    WState × UserData → WEvent → HRes
  | (_st, ud), WEvent.newCmd adm =>
      if adm then HRes.mk WState.AMOUNT emptyUD newPrompt
      else HRes.mk WState.Idle ud [Effect.reply (lit "Доступ ограничен.")]
  | (st, ud), WEvent.cancelCmd =>
      if st = WState.Idle then HRes.mk st ud [] else cancelRes
  | (st, ud), WEvent.msg t =>
      match st with
      | WState.AMOUNT => on_amount ud t
      | WState.RECIPIENT_NAME => on_recipient_name ud t
      | WState.DONOR_FIRST => on_donor_first ud t
      | WState.DONOR_LAST => on_donor_last ud t
      | WState.RECIPIENT_EMAIL => on_recipient_email ud t
      | WState.ACTION => on_action B sheetUrl ud t
      | WState.Idle => HRes.mk WState.Idle ud []

/-- The session in which the process starts: no conversation, no data. -/
def initSess : WState × UserData := (WState.Idle, emptyUD)

/-- The wizard sessions reachable from start-up under any backend, any
configured sheet URL and any event sequence. -/
inductive Reachable : WState × UserData → Prop
  | init : Reachable initSess
  | step (B : Backend) (sheetUrl : Str) (s : WState × UserData) (ev : WEvent) :
      Reachable s →
      Reachable ((wizardStep B sheetUrl s ev).state, (wizardStep B sheetUrl s ev).ud)

/-- The states in which the amount step already lies behind us. -/
def needsAmount : WState → Bool
  | WState.AMOUNT => false
  | WState.Idle => false
  | _ => true

/-- The session invariant of claim C5: a stored amount is positive, and past
the amount step an amount is stored. -/
def Inv : WState × UserData → Prop := fun s =>
  (∀ a, s.2.amount = some a → 0 < a)
  ∧ (needsAmount s.1 = true → s.2.amount.isSome = true)

/-- The payloads of the create calls among a handler's effects. -/
def createdPayloads (out : List Effect) : List CreatePayload :=
  out.filterMap (fun e =>
    match e with
    | Effect.api (ApiCall.create p) => some p
    | _ => none)

/-- The delete calls among a handler's effects. -/
def deleteCalls (out : List Effect) : List (Int × Bool) :=
  out.filterMap (fun e =>
    match e with
    | Effect.api (ApiCall.postDelete g c) => some (g, c)
    | _ => none)

/-- The `get` calls among a handler's effects. -/
def getCalls (out : List Effect) : List (Int × Str) :=
  out.filterMap (fun e =>
    match e with
    | Effect.api (ApiCall.get g c) => some (g, c)
    | _ => none)

/-- A concrete backend on which every call succeeds (a test fixture). -/
def B0 : Backend := Backend.mk
  (fun _ => CreateResp.mk (ApiResp.mk true none none none) (some 5) (some (lit "12345")) none)
  (fun _ _ => GetResp.mk (ApiResp.mk true none none none) none)
  (fun _ _ _ => ApiResp.mk true none none none)
  (fun _ => ApiResp.mk true none none none)
  (fun _ _ => ApiResp.mk true none none none)
  (fun _ _ => ApiResp.mk true none none none)
  (fun _ _ => Except.ok (lit "PDF"))

/-- A concrete backend whose create call fails (a test fixture). -/
def Bfail : Backend := Backend.mk
  (fun _ => CreateResp.mk (ApiResp.mk false (some (lit "boom")) none (some (lit "raw body"))) none none none)
  (fun _ _ => GetResp.mk (ApiResp.mk false (some (lit "boom")) none none) none)
  (fun _ _ _ => ApiResp.mk false (some (lit "boom")) none none)
  (fun _ => ApiResp.mk false (some (lit "boom")) none none)
  (fun _ _ => ApiResp.mk false (some (lit "boom")) none none)
  (fun _ _ => ApiResp.mk false (some (lit "boom")) none none)
  (fun _ _ => Except.error (lit "pdf down"))

/-- A concrete backend where create succeeds but the PDF download raises
(a test fixture). -/
def BpdfErr : Backend := Backend.mk
  (fun _ => CreateResp.mk (ApiResp.mk true none none none) (some 5) (some (lit "12345")) none)
  (fun _ _ => GetResp.mk (ApiResp.mk true none none none) none)
  (fun _ _ _ => ApiResp.mk true none none none)
  (fun _ => ApiResp.mk true none none none)
  (fun _ _ => ApiResp.mk true none none none)
  (fun _ _ => ApiResp.mk true none none none)
  (fun _ _ => Except.error (lit "pdf down"))

/-- A fully collected session (a test fixture). -/
def ud70 : UserData := UserData.mk (some 70) (some []) (some []) (some []) (some [])

end GiftBot

namespace GiftBot

/-! ## Basic lemmas about the string helpers -/

theorem countc_append (c : Char) (l1 l2 : Str) :
    countc c (l1 ++ l2) = countc c l1 + countc c l2 := by
  induction l1 with
  | nil => simp [countc]
  | cons d ds ih => simp [countc, ih]; omega

theorem countc_eq_zero_iff (c : Char) (s : Str) :
    countc c s = 0 ↔ c ∉ s := by
  induction s with
  | nil => simp [countc]
  | cons d ds ih =>
    rw [countc, List.mem_cons]
    by_cases hd : d = c
    · subst hd
      constructor
      · intro h
        rw [if_pos rfl] at h
        exact absurd h (by omega)
      · intro h
        exact absurd (Or.inl rfl) h
    · have hcd : ¬c = d := fun hh => hd (Eq.symm hh)
      simp [if_neg hd, ih, hcd]

theorem countc_pyReplace_self (t : Char) (rep : Str) (s : Str)
    (h : countc t rep = 0) : countc t (pyReplace t rep s) = 0 := by
  induction s with
  | nil => simp [pyReplace, countc]
  | cons d ds ih =>
    by_cases hd : d = t
    · simp [pyReplace, hd, countc_append, h, ih]
    · simp [pyReplace, hd, countc_append, countc, ih, hd]

theorem countc_pyReplace_other (c t : Char) (rep : Str) (s : Str)
    (h1 : countc c rep = 0) (h2 : countc c s = 0) :
    countc c (pyReplace t rep s) = 0 := by
  induction s with
  | nil => simp [pyReplace, countc]
  | cons d ds ih =>
    have hds : countc c ds = 0 := by
      by_cases hd : d = c <;> (simp [countc, hd] at h2; try omega)
    by_cases hd : d = t
    · simp [pyReplace, hd, countc_append, h1, ih hds]
    · have hdc : ¬d = c := by
        intro hcc
        simp [countc, hcc] at h2
      simp [pyReplace, hd, countc_append, countc, hdc, ih hds]

theorem countc_esc_lt (x : Option Str) : countc '<' (esc_html x) = 0 := by
  unfold esc_html
  apply countc_pyReplace_other
  · decide
  · apply countc_pyReplace_self
    decide

theorem countc_esc_gt (x : Option Str) : countc '>' (esc_html x) = 0 := by
  unfold esc_html
  apply countc_pyReplace_self
  decide

theorem digitCh_ne_angle (k : Nat) : digitCh k ≠ '<' ∧ digitCh k ≠ '>' := by
  unfold digitCh
  split_ifs <;> exact ⟨by decide, by decide⟩

theorem countc_natToStr (c : Char) (n : Nat) (h : c = '<' ∨ c = '>') :
    countc c (natToStr n) = 0 := by
  induction n using Nat.strong_induction_on with
  | _ n ih =>
    have hd : ∀ k, digitCh k ≠ c := by
      intro k
      rcases h with h | h <;> subst h
      · exact (digitCh_ne_angle k).1
      · exact (digitCh_ne_angle k).2
    rw [natToStr]
    by_cases hn : n < 10
    · rw [dif_pos hn]
      simp [countc, hd n]
    · rw [dif_neg hn, countc_append, ih (n / 10) (Nat.div_lt_self (by omega) (by omega))]
      simp [countc, hd (n % 10)]

theorem countc_status_emoji (c : Char) (st : Str) (h : c = '<' ∨ c = '>') :
    countc c (status_emoji st) = 0 := by
  rcases h with h | h <;> subst h <;>
    · simp only [status_emoji]
      split_ifs <;> decide

theorem countc_joinNL (c : Char) (h : c ≠ '\n') (ls : List Str) :
    countc c (joinNL ls) = (ls.map (countc c)).sum := by
  have hnc : ('\n' = c) = False := by
    simp
    exact fun hh => h (Eq.symm hh)
  induction ls with
  | nil => simp [joinNL, countc]
  | cons l ls ih =>
    cases ls with
    | nil => simp [joinNL]
    | cons l2 ls2 =>
      have hj : joinNL (l :: l2 :: ls2) = l ++ '\n' :: joinNL (l2 :: ls2) := rfl
      rw [hj, countc_append]
      simp only [List.map_cons, List.sum_cons] at ih ⊢
      simp only [countc, hnc, if_false]
      rw [ih]
      omega

/-- The number of lines and angle brackets the optional parts of the card
contribute, written once for both characters. -/
def angleCountFormula (cert : Cert) : Nat :=
  12
  + (if pstrip (cert.recipient_name.getD []) = []
        ∧ pstrip (cert.recipient_email.getD []) = [] then 0 else 2)
  + (if pstrip ((cert.lastname.getD []) ++ ' ' :: (cert.firstname.getD [])) = []
     then 0 else 2)
  + (if pstrip (cert.created_at.getD []) = [] then 0 else 2)
  + (if pstrip (cert.sent_at.getD []) = [] then 0 else 2)
  + (if pstrip (cert.used_at.getD []) = [] then 0 else 2)
  + (if pstrip (cert.annulled_at.getD []) = [] then 0 else 2)
  + (if cert.order_id = 0 then 0 else 2)

theorem format_cert_lt_count (cert : Cert) :
    countc '<' (format_cert cert) = angleCountFormula cert := by
  have hnl : ('<' : Char) ≠ '\n' := by decide
  simp only [format_cert, tsLine, angleCountFormula]
  rw [countc_joinNL _ hnl]
  simp only [List.map_append, List.sum_append, apply_ite (List.map (countc '<')),
    apply_ite List.sum, List.map_cons, List.map_nil, List.sum_cons, List.sum_nil,
    countc_append, countc_esc_lt,
    show ∀ st, countc '<' (status_emoji st) = 0 from
      fun st => countc_status_emoji _ st (Or.inl rfl),
    show ∀ n, countc '<' (natToStr n) = 0 from
      fun n => countc_natToStr _ n (Or.inl rfl),
    ]
  split_ifs <;> decide

theorem format_cert_gt_count (cert : Cert) :
    countc '>' (format_cert cert) = angleCountFormula cert := by
  have hnl : ('>' : Char) ≠ '\n' := by decide
  simp only [format_cert, tsLine, angleCountFormula]
  rw [countc_joinNL _ hnl]
  simp only [List.map_append, List.sum_append, apply_ite (List.map (countc '>')),
    apply_ite List.sum, List.map_cons, List.map_nil, List.sum_cons, List.sum_nil,
    countc_append, countc_esc_gt,
    show ∀ st, countc '>' (status_emoji st) = 0 from
      fun st => countc_status_emoji _ st (Or.inr rfl),
    show ∀ n, countc '>' (natToStr n) = 0 from
      fun n => countc_natToStr _ n (Or.inr rfl),
    ]
  split_ifs <;> decide

end GiftBot

namespace GiftBot

/-! ## Claim C10: HTML escaping in the certificate card -/

/-- C10: `esc_html` is total (`None` maps to the empty string) and its output
never contains a raw angle bracket; `format_cert` passes every interpolated
field value through `esc_html`, so the angle brackets of a rendered card are
exactly those of the fixed template — their number, `angleCountFormula cert`,
depends only on which optional lines are present, never on the content of any
field value. -/
theorem esc_html_format_cert_no_injection :
    (esc_html none = [])
    ∧ (∀ x : Option Str, '<' ∉ esc_html x ∧ '>' ∉ esc_html x)
    ∧ (∀ cert : Cert,
        countc '<' (format_cert cert) = angleCountFormula cert
        ∧ countc '>' (format_cert cert) = angleCountFormula cert) := by
  refine ⟨rfl, fun x => ⟨?_, ?_⟩,
    fun cert => ⟨format_cert_lt_count cert, format_cert_gt_count cert⟩⟩
  · exact (countc_eq_zero_iff _ _).mp (countc_esc_lt x)
  · exact (countc_eq_zero_iff _ _).mp (countc_esc_gt x)

/-! ## Claim C9: the identity gate -/

/-- C9: `is_admin` is a total function that is fail-open on an empty
configured set, true for members, and false otherwise. -/
theorem is_admin_gate (admins : List Nat) (uid : Nat) :
    (is_admin [] uid = true)
    ∧ (uid ∈ admins → is_admin admins uid = true)
    ∧ (admins ≠ [] → uid ∉ admins → is_admin admins uid = false) := by
  refine ⟨rfl, fun h => ?_, fun h1 h2 => ?_⟩
  · simp [is_admin, h]
  · simp [is_admin, h1, h2]

/-- Witness for C9 at the concrete set `[5, 7]` and caller `3`. -/
theorem is_admin_gate_witness :
    (is_admin [] 3 = true)
    ∧ (3 ∈ [5, 7] → is_admin [5, 7] 3 = true)
    ∧ ([5, 7] ≠ [] → 3 ∉ [5, 7] → is_admin [5, 7] 3 = false) :=
  is_admin_gate [5, 7] 3

/-! ## Claim C3: the optional wizard steps -/

/-- C3 (amended): every optional step always advances to the next state and
stores the whitespace-stripped input text, with a stripped `"-"` mapping to
the empty string — not the verbatim input text. -/
theorem optional_steps_store_stripped (ud : UserData) (t : Str) :
    ((on_recipient_name ud t).ud.recipient_name = some (skipDash (pstrip t))
      ∧ (on_recipient_name ud t).state = WState.DONOR_FIRST)
    ∧ ((on_donor_first ud t).ud.firstname = some (skipDash (pstrip t))
      ∧ (on_donor_first ud t).state = WState.DONOR_LAST)
    ∧ ((on_donor_last ud t).ud.lastname = some (skipDash (pstrip t))
      ∧ (on_donor_last ud t).state = WState.RECIPIENT_EMAIL)
    ∧ ((on_recipient_email ud t).ud.recipient_email = some (skipDash (pstrip t))
      ∧ (on_recipient_email ud t).state = WState.ACTION)
    ∧ skipDash (pstrip (lit "-")) = [] := by
  exact ⟨⟨rfl, rfl⟩, ⟨rfl, rfl⟩, ⟨rfl, rfl⟩, ⟨rfl, rfl⟩, by decide⟩

/-- C3 counterexample: the input `" Анна "` is stored stripped (`"Анна"`),
not verbatim, refuting the claim's "any other input text is stored
verbatim (unchanged)". -/
theorem optional_step_verbatim_cex :
    (on_recipient_name emptyUD (lit " Анна ")).ud.recipient_name = some (lit "Анна")
    ∧ ¬((on_recipient_name emptyUD (lit " Анна ")).ud.recipient_name
          = some (lit " Анна "))
    ∧ (on_recipient_name emptyUD (lit " Анна ")).state = WState.DONOR_FIRST := by
  exact ⟨by decide, by decide, by decide⟩

/-! ## Claim C4: the amount step -/

/-- C4 (amended): with `s` the whitespace-**stripped** input text, the amount
step advances and stores `int(s)` exactly when `s` is a positive digit
string; otherwise it re-prompts, leaves the session data untouched and stays
in `AMOUNT`. -/
theorem amount_step_strip_validate (ud : UserData) (t : Str) :
    (pyIsDigit (pstrip t) = true ∧ 0 < digitsToNat (pstrip t) →
       (on_amount ud t).state = WState.RECIPIENT_NAME
       ∧ (on_amount ud t).ud.amount = some (digitsToNat (pstrip t)))
    ∧ (¬(pyIsDigit (pstrip t) = true ∧ 0 < digitsToNat (pstrip t)) →
       (on_amount ud t).state = WState.AMOUNT
       ∧ (on_amount ud t).ud = ud
       ∧ (on_amount ud t).out = [Effect.reply (lit "Нужно число > 0. Пример: 70")]) := by
  constructor
  · intro h
    have hcond : ¬(pyIsDigit (pstrip t) = false ∨ digitsToNat (pstrip t) ≤ 0) := by
      intro hc
      rcases hc with hc | hc
      · rw [h.1] at hc
        exact Bool.noConfusion hc
      · omega
    simp only [on_amount]
    rw [if_neg hcond]
    exact ⟨rfl, rfl⟩
  · intro h
    have hcond : pyIsDigit (pstrip t) = false ∨ digitsToNat (pstrip t) ≤ 0 := by
      by_cases hd : pyIsDigit (pstrip t) = true
      · right
        rcases Nat.eq_zero_or_pos (digitsToNat (pstrip t)) with hz | hp
        · omega
        · exact absurd ⟨hd, hp⟩ h
      · exact Or.inl (Bool.not_eq_true _ ▸ hd)
    simp only [on_amount]
    rw [if_pos hcond]
    exact ⟨rfl, rfl, rfl⟩

/-- Witness for C4 at the inputs `"70"` (advances) and `"abc"` (re-prompts). -/
theorem amount_step_strip_validate_witness :
    (pyIsDigit (pstrip (lit "70")) = true ∧ 0 < digitsToNat (pstrip (lit "70")) →
       (on_amount emptyUD (lit "70")).state = WState.RECIPIENT_NAME
       ∧ (on_amount emptyUD (lit "70")).ud.amount = some (digitsToNat (pstrip (lit "70"))))
    ∧ (¬(pyIsDigit (pstrip (lit "70")) = true ∧ 0 < digitsToNat (pstrip (lit "70"))) →
       (on_amount emptyUD (lit "70")).state = WState.AMOUNT
       ∧ (on_amount emptyUD (lit "70")).ud = emptyUD
       ∧ (on_amount emptyUD (lit "70")).out
           = [Effect.reply (lit "Нужно число > 0. Пример: 70")]) :=
  amount_step_strip_validate emptyUD (lit "70")

/-- C4 counterexample: the raw input `" 70 "` is not a digit string, yet the
step advances and stores 70 (refuting "for every other input ... it
re-prompts and the session remains in AwaitingAmount"). -/
theorem amount_step_whitespace_cex :
    pyIsDigit (lit " 70 ") = false
    ∧ (on_amount emptyUD (lit " 70 ")).state = WState.RECIPIENT_NAME
    ∧ (on_amount emptyUD (lit " 70 ")).ud.amount = some 70 := by
  exact ⟨by decide, by decide, by decide⟩

end GiftBot

namespace GiftBot

theorem mkPayload_send_email_iff (ud : UserData) (s : Str) :
    (mkPayload ud s).send_email = true ↔ s = lit "✉️ На email" := by
  unfold mkPayload
  dsimp
  split_ifs with h
  · simp [h]
  · simp [h]

theorem mkPayload_recipient_email (ud : UserData) (s : Str) :
    (mkPayload ud s).recipient_email = ud.recipient_email.getD [] := rfl

theorem mkPayload_amount (ud : UserData) (s : Str) :
    (mkPayload ud s).amount = ud.amount.getD 0 := rfl

/-! ## Claim C8: email choice with no email address -/

/-- C8: choosing the literal Email delivery while the collected recipient
email is empty issues no creation call: the handler replies with the
corrective message and the session stays in the delivery-choice state with
its data untouched. -/
theorem email_empty_no_create (B : Backend) (sheetUrl : Str) (ud : UserData)
    (t : Str)
    (hemail : pstrip t = lit "✉️ На email")
    (hempty : ud.recipient_email.getD [] = []) :
    on_action B sheetUrl ud t
      = HRes.mk WState.ACTION ud
          [Effect.reply (lit "Вы выбрали email, но email не указан. Введите email или выберите PDF в Telegram.")]
    ∧ createdPayloads (on_action B sheetUrl ud t).out = [] := by
  have hc : pstrip t ≠ lit "❌ Отмена" := by
    rw [hemail]
    decide
  have hcond : (mkPayload ud (pstrip t)).send_email = true
      ∧ (mkPayload ud (pstrip t)).recipient_email = [] :=
    ⟨(mkPayload_send_email_iff _ _).mpr hemail,
     (mkPayload_recipient_email _ _).trans hempty⟩
  have hred : on_action B sheetUrl ud t
      = HRes.mk WState.ACTION ud
          [Effect.reply (lit "Вы выбрали email, но email не указан. Введите email или выберите PDF в Telegram.")] := by
    simp only [on_action]
    rw [if_neg hc, if_pos hcond]
  refine ⟨hred, ?_⟩
  rw [hred]
  rfl

/-- Witness for C8: the fixture session `ud70` (its collected email is the
empty string) and the literal Email choice. -/
theorem email_empty_no_create_witness :
    on_action B0 [] ud70 (lit "✉️ На email")
      = HRes.mk WState.ACTION ud70
          [Effect.reply (lit "Вы выбрали email, но email не указан. Введите email или выберите PDF в Telegram.")]
    ∧ createdPayloads (on_action B0 [] ud70 (lit "✉️ На email")).out = [] :=
  email_empty_no_create B0 [] ud70 (lit "✉️ На email") (by decide) (by decide)

/-! ## Claim C2: the delivery-choice step -/

/-- C2 counterexample: in the delivery-choice state the free text
`"привет"` — none of the three literals — is not rejected: the wizard
issues a creation call (with `send_email = false`) and leaves the
delivery-choice state, refuting the claimed local validation failure. -/
theorem delivery_choice_nonliteral_cex :
    (on_action B0 [] ud70 (lit "привет")).state = WState.Idle
    ∧ ¬((on_action B0 [] ud70 (lit "привет")).state = WState.ACTION)
    ∧ createdPayloads (on_action B0 [] ud70 (lit "привет")).out
        = [CreatePayload.mk 70 [] [] [] [] false] := by
  exact ⟨by decide, by decide, by decide⟩

/-- C2 (amended): in the delivery-choice state only the cancel literal and
the Email choice with an empty collected email avoid submission; every other
input text — the PDF literal and arbitrary text alike — is submitted:
exactly one creation call is issued, `send_email` is set exactly for the
Email literal, and the conversation ends. -/
theorem delivery_choice_submits (B : Backend) (sheetUrl : Str) (ud : UserData)
    (t : Str)
    (hc : pstrip t ≠ lit "❌ Отмена")
    (he : ¬(pstrip t = lit "✉️ На email" ∧ ud.recipient_email.getD [] = [])) :
    createdPayloads (on_action B sheetUrl ud t).out = [mkPayload ud (pstrip t)]
    ∧ ((mkPayload ud (pstrip t)).send_email = true
        ↔ pstrip t = lit "✉️ На email")
    ∧ (on_action B sheetUrl ud t).state = WState.Idle := by
  have he2 : ¬((mkPayload ud (pstrip t)).send_email = true
      ∧ (mkPayload ud (pstrip t)).recipient_email = []) := by
    intro hx
    exact he ⟨(mkPayload_send_email_iff _ _).mp hx.1,
              (mkPayload_recipient_email _ _).symm.trans hx.2⟩
  have hstate : (on_action B sheetUrl ud t).state = WState.Idle := by
    simp only [on_action]
    rw [if_neg hc, if_neg he2]
    by_cases hr : (B.createResp (mkPayload ud (pstrip t))).base.success = false
    · rw [if_pos hr]
    · rw [if_neg hr]
  have hcr : createdPayloads (on_action B sheetUrl ud t).out
      = [mkPayload ud (pstrip t)] := by
    simp only [on_action]
    rw [if_neg hc, if_neg he2]
    by_cases hr : (B.createResp (mkPayload ud (pstrip t))).base.success = false
    · rw [if_pos hr]
      rfl
    · rw [if_neg hr]
      cases hpdf : B.pdfResp (pyOrOI (B.createResp (mkPayload ud (pstrip t))).giftcert_id 0) [] with
      | ok v =>
        by_cases hs : sheetUrl = [] <;>
          simp [createdPayloads, hpdf, hs, List.filterMap_append]
      | error e =>
        by_cases hs : sheetUrl = [] <;>
          simp [createdPayloads, hpdf, hs, List.filterMap_append]
  exact ⟨hcr, mkPayload_send_email_iff ud (pstrip t), hstate⟩

/-- Witness for C2 (amended) at the free text `"привет"` on `ud70`. -/
theorem delivery_choice_submits_witness :
    createdPayloads (on_action B0 [] ud70 (lit "привет")).out
      = [mkPayload ud70 (pstrip (lit "привет"))]
    ∧ ((mkPayload ud70 (pstrip (lit "привет"))).send_email = true
        ↔ pstrip (lit "привет") = lit "✉️ На email")
    ∧ (on_action B0 [] ud70 (lit "привет")).state = WState.Idle :=
  delivery_choice_submits B0 [] ud70 (lit "привет") (by decide) (by decide)

end GiftBot

namespace GiftBot

/-! ## Claim C7: failure handling of the submission -/

/-- C7: on a failed create call `on_action` reports the error (the raw body
truncated to 500 characters, see `createErrText`), issues no further call
and ends in `Idle`; on a successful create whose PDF download then raises,
it reports the distinct partial-success message, never issues a delete
(no rollback), still made exactly the one create call, and ends in `Idle`. -/
theorem create_failure_and_partial (B : Backend) (sheetUrl : Str)
    (ud : UserData) (t : Str)
    (hc : pstrip t ≠ lit "❌ Отмена")
    (he : ¬(pstrip t = lit "✉️ На email" ∧ ud.recipient_email.getD [] = [])) :
    ((B.createResp (mkPayload ud (pstrip t))).base.success = false →
       on_action B sheetUrl ud t
         = HRes.mk WState.Idle ud
             [Effect.reply (lit "Генерирую сертификат…"),
              Effect.api (ApiCall.create (mkPayload ud (pstrip t))),
              Effect.reply (createErrText (B.createResp (mkPayload ud (pstrip t))))])
    ∧ ((B.createResp (mkPayload ud (pstrip t))).base.success = true →
       ∀ e, B.pdfResp (pyOrOI (B.createResp (mkPayload ud (pstrip t))).giftcert_id 0) []
              = Except.error e →
       (on_action B sheetUrl ud t).state = WState.Idle
       ∧ createdPayloads (on_action B sheetUrl ud t).out = [mkPayload ud (pstrip t)]
       ∧ deleteCalls (on_action B sheetUrl ud t).out = []
       ∧ Effect.reply (lit "Создан, но не смог отправить PDF: " ++ e)
           ∈ (on_action B sheetUrl ud t).out) := by
  have he2 : ¬((mkPayload ud (pstrip t)).send_email = true
      ∧ (mkPayload ud (pstrip t)).recipient_email = []) := by
    intro hx
    exact he ⟨(mkPayload_send_email_iff _ _).mp hx.1,
              (mkPayload_recipient_email _ _).symm.trans hx.2⟩
  constructor
  · intro hfail
    simp only [on_action]
    rw [if_neg hc, if_neg he2, if_pos hfail]
    rfl
  · intro hsucc e hpdf
    have hr : ¬((B.createResp (mkPayload ud (pstrip t))).base.success = false) := by
      simp [hsucc]
    refine ⟨?_, ?_, ?_, ?_⟩ <;>
      (simp only [on_action]; rw [if_neg hc, if_neg he2, if_neg hr])
    · by_cases hs : sheetUrl = [] <;>
        simp [createdPayloads, hpdf, hs, List.filterMap_append]
    · by_cases hs : sheetUrl = [] <;>
        simp [deleteCalls, hpdf, hs, List.filterMap_append]
    · by_cases hs : sheetUrl = [] <;>
        simp [hpdf, hs, List.mem_append]

/-- Witness for C7: the failing backend `Bfail` (part one applies) on the
collected session `ud70` with the PDF-in-chat choice. -/
theorem create_failure_and_partial_witness :
    ((Bfail.createResp (mkPayload ud70 (pstrip (lit "📄 PDF в Telegram")))).base.success = false →
       on_action Bfail [] ud70 (lit "📄 PDF в Telegram")
         = HRes.mk WState.Idle ud70
             [Effect.reply (lit "Генерирую сертификат…"),
              Effect.api (ApiCall.create (mkPayload ud70 (pstrip (lit "📄 PDF в Telegram")))),
              Effect.reply (createErrText (Bfail.createResp (mkPayload ud70 (pstrip (lit "📄 PDF в Telegram")))))])
    ∧ ((Bfail.createResp (mkPayload ud70 (pstrip (lit "📄 PDF в Telegram")))).base.success = true →
       ∀ e, Bfail.pdfResp (pyOrOI (Bfail.createResp (mkPayload ud70 (pstrip (lit "📄 PDF в Telegram")))).giftcert_id 0) []
              = Except.error e →
       (on_action Bfail [] ud70 (lit "📄 PDF в Telegram")).state = WState.Idle
       ∧ createdPayloads (on_action Bfail [] ud70 (lit "📄 PDF в Telegram")).out
           = [mkPayload ud70 (pstrip (lit "📄 PDF в Telegram"))]
       ∧ deleteCalls (on_action Bfail [] ud70 (lit "📄 PDF в Telegram")).out = []
       ∧ Effect.reply (lit "Создан, но не смог отправить PDF: " ++ e)
           ∈ (on_action Bfail [] ud70 (lit "📄 PDF в Telegram")).out) :=
  create_failure_and_partial Bfail [] ud70 (lit "📄 PDF в Telegram")
    (by decide) (by decide)

/-! ## Claim C6: the two-phase delete -/

theorem splitColon_prefix (p rest : Str) (h : ':' ∉ p) :
    splitColon (p ++ ':' :: rest) = some (p, rest) := by
  induction p with
  | nil => simp [splitColon]
  | cons c cs ih =>
    have hc : ¬c = ':' := fun hh => h (hh ▸ List.mem_cons_self c cs)
    have hcs : ':' ∉ cs := fun hm => h (List.mem_cons_of_mem c hm)
    simp [splitColon, hc, ih hcs]

theorem on_callback_parses (B : Backend) (admins : List Nat) (uid : Nat)
    (verb gid_s : Str) (gid : Int)
    (hadm : is_admin admins uid = true)
    (hcol : ':' ∉ verb)
    (hgid : pyInt gid_s = some gid) :
    on_callback B admins uid (some (verb ++ ':' :: gid_s)) = dispatch B verb gid := by
  have hnadm : ¬(is_admin admins uid = false) := by simp [hadm]
  simp only [on_callback, if_neg hnadm, splitColon_prefix verb gid_s hcol, hgid]

theorem deleteCalls_fetchAndShow (B : Backend) (gid : Int) (msg : Str) :
    deleteCalls (fetchAndShow B gid msg) = [] := by
  simp only [fetchAndShow]
  cases hx : (if (B.getResp gid []).base.success = true
      then (B.getResp gid []).cert else none) <;> simp [deleteCalls, hx]

theorem deleteCalls_dispatch_other (B : Backend) (verb : Str) (gid : Int)
    (h : verb ≠ lit "del_yes") :
    deleteCalls (dispatch B verb gid) = [] := by
  simp only [dispatch]
  split_ifs <;>
    first
      | rfl
      | (exact absurd (by assumption) h)
      | (cases B.pdfResp gid [] <;> rfl)
      | (exact deleteCalls_fetchAndShow B gid (lit "Готово ✅"))
      | (exact deleteCalls_fetchAndShow B gid
          (lit "🚫 Аннулирован ✅ (сертификат #" ++ intToStr gid ++ lit ")"))

/-- C6: dispatching `del` issues no backend call at all — it only emits the
confirm/cancel prompt whose two buttons re-encode the same id as `del_yes`
and `del_no` tokens; only `del_yes` issues the delete call, with the
explicit confirm flag set; `del_no` issues no call. -/
theorem delete_two_phase (B : Backend) (admins : List Nat) (uid : Nat)
    (gid_s : Str) (gid : Int)
    (hadm : is_admin admins uid = true)
    (hgid : pyInt gid_s = some gid) :
    on_callback B admins uid (some (lit "del:" ++ gid_s))
      = [Effect.answer [] false,
         Effect.replyInline
           (lit "Удалить сертификат #" ++ intToStr gid
             ++ lit "? Код станет доступен снова.")
           [[(lit "✅ Да, удалить", lit "del_yes:" ++ intToStr gid),
             (lit "↩️ Отмена", lit "del_no:" ++ intToStr gid)]]]
    ∧ (∀ e ∈ on_callback B admins uid (some (lit "del:" ++ gid_s)),
         ∀ c : ApiCall, e ≠ Effect.api c)
    ∧ deleteCalls (on_callback B admins uid (some (lit "del_yes:" ++ gid_s)))
        = [(gid, true)]
    ∧ on_callback B admins uid (some (lit "del_no:" ++ gid_s))
        = [Effect.answer (lit "Ок, не удаляю.") false]
    ∧ (∀ verb : Str, verb ≠ lit "del_yes" →
         deleteCalls (dispatch B verb gid) = []) := by
  have h1 : lit "del:" ++ gid_s = lit "del" ++ ':' :: gid_s := rfl
  have h2 : lit "del_yes:" ++ gid_s = lit "del_yes" ++ ':' :: gid_s := rfl
  have h3 : lit "del_no:" ++ gid_s = lit "del_no" ++ ':' :: gid_s := rfl
  have hdel := on_callback_parses B admins uid (lit "del") gid_s gid hadm (by decide) hgid
  have hyes := on_callback_parses B admins uid (lit "del_yes") gid_s gid hadm (by decide) hgid
  have hno := on_callback_parses B admins uid (lit "del_no") gid_s gid hadm (by decide) hgid
  have hdel2 : on_callback B admins uid (some (lit "del:" ++ gid_s))
      = dispatch B (lit "del") gid := by rw [h1, hdel]
  have hyes2 : on_callback B admins uid (some (lit "del_yes:" ++ gid_s))
      = dispatch B (lit "del_yes") gid := by rw [h2, hyes]
  have hno2 : on_callback B admins uid (some (lit "del_no:" ++ gid_s))
      = dispatch B (lit "del_no") gid := by rw [h3, hno]
  have hdel3 : dispatch B (lit "del") gid
      = [Effect.answer [] false,
         Effect.replyInline
           (lit "Удалить сертификат #" ++ intToStr gid
             ++ lit "? Код станет доступен снова.")
           [[(lit "✅ Да, удалить", lit "del_yes:" ++ intToStr gid),
             (lit "↩️ Отмена", lit "del_no:" ++ intToStr gid)]]] := by
    simp only [dispatch]
    rw [if_pos trivial]
  refine ⟨hdel2.trans hdel3, ?_, ?_, ?_, fun verb hv => deleteCalls_dispatch_other B verb gid hv⟩
  · intro e he c
    rw [hdel2.trans hdel3] at he
    simp only [List.mem_cons, List.not_mem_nil, or_false] at he
    rcases he with he | he <;> subst he <;> intro hx <;> cases hx
  · rw [hyes2]
    simp only [dispatch]
    rw [if_neg (by decide), if_neg (by decide), if_pos trivial]
    by_cases hr : (B.deleteResp gid true).success = false <;>
      simp [deleteCalls, hr]
  · rw [hno2]
    simp only [dispatch]
    rw [if_neg (by decide), if_pos trivial]

/-- Witness for C6 at certificate id 17. -/
theorem delete_two_phase_witness :
    on_callback B0 [] 1 (some (lit "del:" ++ lit "17"))
      = [Effect.answer [] false,
         Effect.replyInline
           (lit "Удалить сертификат #" ++ intToStr 17
             ++ lit "? Код станет доступен снова.")
           [[(lit "✅ Да, удалить", lit "del_yes:" ++ intToStr 17),
             (lit "↩️ Отмена", lit "del_no:" ++ intToStr 17)]]]
    ∧ (∀ e ∈ on_callback B0 [] 1 (some (lit "del:" ++ lit "17")),
         ∀ c : ApiCall, e ≠ Effect.api c)
    ∧ deleteCalls (on_callback B0 [] 1 (some (lit "del_yes:" ++ lit "17")))
        = [(17, true)]
    ∧ on_callback B0 [] 1 (some (lit "del_no:" ++ lit "17"))
        = [Effect.answer (lit "Ок, не удаляю.") false]
    ∧ (∀ verb : Str, verb ≠ lit "del_yes" →
         deleteCalls (dispatch B0 verb 17) = []) :=
  delete_two_phase B0 [] 1 (lit "17") 17 (by decide) (by decide)

end GiftBot

namespace GiftBot

/-! ## Claim C1: anonymous scans -/

/-- C1: an anonymous caller whose scan payload extracts to a non-empty digit
code — via `/scan` or the `/start` deep link — receives exactly the fixed
promotional text; no `get` (indeed no API call at all, by the equalities)
is issued, and the output is the same whatever the backend would answer,
so it cannot depend on whether the code resolves upstream. -/
theorem scan_anonymous_promo_only
    (B B2 : Backend) (admins : List Nat) (uid : Nat) (sheetUrl : Str)
    (a p : Str) (r r2 : List Str)
    (hadm : is_admin admins uid = false)
    (ha : filterDigits a ≠ [])
    (hp : deepLinkCode (pstrip p) ≠ []) :
    scan_cmd B admins uid (a :: r) = [Effect.reply NON_ADMIN_SCAN_TEXT]
    ∧ start B admins uid sheetUrl (p :: r2) = [Effect.reply NON_ADMIN_SCAN_TEXT]
    ∧ getCalls (scan_cmd B admins uid (a :: r)) = []
    ∧ getCalls (start B admins uid sheetUrl (p :: r2)) = []
    ∧ scan_cmd B admins uid (a :: r) = scan_cmd B2 admins uid (a :: r)
    ∧ start B admins uid sheetUrl (p :: r2) = start B2 admins uid sheetUrl (p :: r2) := by
  have hscan : ∀ B3 : Backend,
      scan_cmd B3 admins uid (a :: r) = [Effect.reply NON_ADMIN_SCAN_TEXT] := by
    intro B3
    simp only [scan_cmd]
    rw [if_neg ha, if_pos hadm]
  have hpp : pstrip p ≠ [] := by
    intro hnil
    rw [hnil] at hp
    exact hp rfl
  have hstart : ∀ B3 : Backend,
      start B3 admins uid sheetUrl (p :: r2) = [Effect.reply NON_ADMIN_SCAN_TEXT] := by
    intro B3
    simp only [start]
    rw [if_neg hpp, if_pos ⟨hp, hadm⟩]
  refine ⟨hscan B, hstart B, ?_, ?_, (hscan B).trans (hscan B2).symm,
    (hstart B).trans (hstart B2).symm⟩
  · rw [hscan B]
    rfl
  · rw [hstart B]
    rfl

/-- Witness for C1: anonymous caller 7 against admin list `[42]`, scanning
`"4521"` and deep-linking `"gc_004521"`, under two different backends. -/
theorem scan_anonymous_promo_only_witness :
    scan_cmd B0 [42] 7 (lit "4521" :: []) = [Effect.reply NON_ADMIN_SCAN_TEXT]
    ∧ start B0 [42] 7 [] (lit "gc_004521" :: []) = [Effect.reply NON_ADMIN_SCAN_TEXT]
    ∧ getCalls (scan_cmd B0 [42] 7 (lit "4521" :: [])) = []
    ∧ getCalls (start B0 [42] 7 [] (lit "gc_004521" :: [])) = []
    ∧ scan_cmd B0 [42] 7 (lit "4521" :: []) = scan_cmd Bfail [42] 7 (lit "4521" :: [])
    ∧ start B0 [42] 7 [] (lit "gc_004521" :: [])
        = start Bfail [42] 7 [] (lit "gc_004521" :: []) :=
  scan_anonymous_promo_only B0 Bfail [42] 7 [] (lit "4521") (lit "gc_004521") [] []
    (by decide) (by decide) (by decide)

end GiftBot

namespace GiftBot

/-! ## Claim C5: the amount invariant of the wizard -/

theorem on_amount_inv (ud : UserData) (t : Str)
    (h1 : ∀ a, ud.amount = some a → 0 < a) :
    Inv ((on_amount ud t).state, (on_amount ud t).ud) := by
  simp only [on_amount]
  by_cases hc : pyIsDigit (pstrip t) = false ∨ digitsToNat (pstrip t) ≤ 0
  · rw [if_pos hc]
    exact ⟨h1, fun hx => Bool.noConfusion hx⟩
  · rw [if_neg hc]
    refine ⟨?_, fun _ => rfl⟩
    intro a hx
    have hx2 : some (digitsToNat (pstrip t)) = some a := hx
    cases hx2
    push_neg at hc
    omega

theorem on_recipient_name_inv (ud : UserData) (t : Str)
    (h : Inv (WState.RECIPIENT_NAME, ud)) :
    Inv ((on_recipient_name ud t).state, (on_recipient_name ud t).ud) :=
  ⟨fun a hx => h.1 a hx, fun _ => h.2 rfl⟩

theorem on_donor_first_inv (ud : UserData) (t : Str)
    (h : Inv (WState.DONOR_FIRST, ud)) :
    Inv ((on_donor_first ud t).state, (on_donor_first ud t).ud) :=
  ⟨fun a hx => h.1 a hx, fun _ => h.2 rfl⟩

theorem on_donor_last_inv (ud : UserData) (t : Str)
    (h : Inv (WState.DONOR_LAST, ud)) :
    Inv ((on_donor_last ud t).state, (on_donor_last ud t).ud) :=
  ⟨fun a hx => h.1 a hx, fun _ => h.2 rfl⟩

theorem on_recipient_email_inv (ud : UserData) (t : Str)
    (h : Inv (WState.RECIPIENT_EMAIL, ud)) :
    Inv ((on_recipient_email ud t).state, (on_recipient_email ud t).ud) :=
  ⟨fun a hx => h.1 a hx, fun _ => h.2 rfl⟩

theorem on_action_inv (B : Backend) (sheetUrl : Str) (ud : UserData) (t : Str)
    (h : Inv (WState.ACTION, ud)) :
    Inv ((on_action B sheetUrl ud t).state, (on_action B sheetUrl ud t).ud) := by
  obtain ⟨h1, h2⟩ := h
  simp only [on_action]
  by_cases hc : pstrip t = lit "❌ Отмена"
  · rw [if_pos hc]
    exact ⟨fun a hx => Option.noConfusion hx, fun hx => Bool.noConfusion hx⟩
  · rw [if_neg hc]
    by_cases hm : (mkPayload ud (pstrip t)).send_email = true
        ∧ (mkPayload ud (pstrip t)).recipient_email = []
    · rw [if_pos hm]
      exact ⟨h1, fun _ => h2 rfl⟩
    · rw [if_neg hm]
      by_cases hr : (B.createResp (mkPayload ud (pstrip t))).base.success = false
      · rw [if_pos hr]
        exact ⟨h1, fun hx => Bool.noConfusion hx⟩
      · rw [if_neg hr]
        exact ⟨h1, fun hx => Bool.noConfusion hx⟩

theorem step_preserves_inv (B : Backend) (sheetUrl : Str) (s : WState × UserData)
    (ev : WEvent) (h : Inv s) :
    Inv ((wizardStep B sheetUrl s ev).state, (wizardStep B sheetUrl s ev).ud) := by
  obtain ⟨st, ud⟩ := s
  cases ev with
  | newCmd adm =>
    cases adm
    · exact ⟨h.1, fun hx => Bool.noConfusion hx⟩
    · exact ⟨fun a hx => Option.noConfusion hx, fun hx => Bool.noConfusion hx⟩
  | cancelCmd =>
    by_cases hs : st = WState.Idle
    · subst hs
      exact ⟨h.1, h.2⟩
    · have heq : wizardStep B sheetUrl (st, ud) WEvent.cancelCmd = cancelRes := by
        simp only [wizardStep]
        rw [if_neg hs]
      rw [heq]
      exact ⟨fun a hx => Option.noConfusion hx, fun hx => Bool.noConfusion hx⟩
  | msg t =>
    cases st with
    | AMOUNT => exact on_amount_inv ud t h.1
    | RECIPIENT_NAME => exact on_recipient_name_inv ud t h
    | DONOR_FIRST => exact on_donor_first_inv ud t h
    | DONOR_LAST => exact on_donor_last_inv ud t h
    | RECIPIENT_EMAIL => exact on_recipient_email_inv ud t h
    | ACTION => exact on_action_inv B sheetUrl ud t h
    | Idle => exact ⟨h.1, fun hx => Bool.noConfusion hx⟩

theorem createdPayloads_on_amount (ud : UserData) (t : Str) :
    createdPayloads (on_amount ud t).out = [] := by
  simp only [on_amount]
  split_ifs <;> rfl

theorem createdPayloads_on_action (B : Backend) (sheetUrl : Str)
    (ud : UserData) (t : Str) :
    ∀ p ∈ createdPayloads (on_action B sheetUrl ud t).out,
      p = mkPayload ud (pstrip t) := by
  intro p hp
  simp only [on_action] at hp
  by_cases hc : pstrip t = lit "❌ Отмена"
  · rw [if_pos hc] at hp
    exact absurd hp (List.not_mem_nil p)
  · rw [if_neg hc] at hp
    by_cases hm : (mkPayload ud (pstrip t)).send_email = true
        ∧ (mkPayload ud (pstrip t)).recipient_email = []
    · rw [if_pos hm] at hp
      exact absurd hp (List.not_mem_nil p)
    · rw [if_neg hm] at hp
      by_cases hr : (B.createResp (mkPayload ud (pstrip t))).base.success = false
      · rw [if_pos hr] at hp
        simpa [createdPayloads] using hp
      · rw [if_neg hr] at hp
        cases hpdf : B.pdfResp (pyOrOI (B.createResp (mkPayload ud (pstrip t))).giftcert_id 0) [] <;>
          by_cases hs : sheetUrl = [] <;>
            (simp [createdPayloads, hpdf, hs, List.filterMap_append] at hp; exact hp)

theorem step_creates (B : Backend) (sheetUrl : Str) (s : WState × UserData)
    (ev : WEvent) (hInv : Inv s) :
    ∀ p ∈ createdPayloads (wizardStep B sheetUrl s ev).out,
      ∃ a, s.2.amount = some a ∧ 0 < a ∧ p.amount = a := by
  obtain ⟨st, ud⟩ := s
  intro p hp
  cases ev with
  | newCmd adm =>
    cases adm
    · exact absurd hp (List.not_mem_nil p)
    · exact absurd hp (List.not_mem_nil p)
  | cancelCmd =>
    by_cases hs : st = WState.Idle
    · subst hs
      exact absurd hp (List.not_mem_nil p)
    · have heq : wizardStep B sheetUrl (st, ud) WEvent.cancelCmd = cancelRes := by
        simp only [wizardStep]
        rw [if_neg hs]
      rw [heq] at hp
      exact absurd hp (List.not_mem_nil p)
  | msg t =>
    cases st with
    | AMOUNT =>
      rw [show (wizardStep B sheetUrl (WState.AMOUNT, ud) (WEvent.msg t)).out
            = (on_amount ud t).out from rfl, createdPayloads_on_amount] at hp
      exact absurd hp (List.not_mem_nil p)
    | RECIPIENT_NAME => exact absurd hp (List.not_mem_nil p)
    | DONOR_FIRST => exact absurd hp (List.not_mem_nil p)
    | DONOR_LAST => exact absurd hp (List.not_mem_nil p)
    | RECIPIENT_EMAIL => exact absurd hp (List.not_mem_nil p)
    | ACTION =>
      have h2 : ud.amount.isSome = true := hInv.2 rfl
      obtain ⟨a, ha⟩ := Option.isSome_iff_exists.mp h2
      have hpa := createdPayloads_on_action B sheetUrl ud t p hp
      refine ⟨a, ha, hInv.1 a ha, ?_⟩
      rw [hpa, mkPayload_amount, ha]
      rfl
    | Idle => exact absurd hp (List.not_mem_nil p)

/-- C5: in every reachable wizard session, a stored amount is a positive
integer, past the amount step an amount is stored (`Inv`), and every create
call any next event could issue carries that stored positive amount — so no
creation request is ever submitted while the amount is unset. -/
theorem wizard_amount_invariant (s : WState × UserData) (h : Reachable s) :
    Inv s
    ∧ ∀ (B : Backend) (sheetUrl : Str) (ev : WEvent) (p : CreatePayload),
        p ∈ createdPayloads (wizardStep B sheetUrl s ev).out →
        ∃ a, s.2.amount = some a ∧ 0 < a ∧ p.amount = a := by
  induction h with
  | init =>
    have hi : Inv initSess :=
      ⟨fun a hx => Option.noConfusion hx, fun hx => Bool.noConfusion hx⟩
    exact ⟨hi, fun B sh ev p hp => step_creates B sh initSess ev hi p hp⟩
  | step B sh s ev hr ih =>
    have hi := step_preserves_inv B sh s ev ih.1
    exact ⟨hi, fun B2 sh2 ev2 p hp => step_creates B2 sh2 _ ev2 hi p hp⟩

/-- Witness for C5 at the start-up session, reachable by construction. -/
theorem wizard_amount_invariant_witness :
    Inv initSess
    ∧ ∀ (B : Backend) (sheetUrl : Str) (ev : WEvent) (p : CreatePayload),
        p ∈ createdPayloads (wizardStep B sheetUrl initSess ev).out →
        ∃ a, initSess.2.amount = some a ∧ 0 < a ∧ p.amount = a :=
  wizard_amount_invariant initSess Reachable.init

end GiftBot
